import Mathlib

/-!
# Raytracing demo bootstrap: a shallow embedding of `app.cpp` and `window.cpp`

The program is a linear sequence of calls into the windowing library and the
GPU driver.  The embedding keeps the order of those calls as a trace of
`Call` events, the answers of the driver as a `Driver` record, and the
fields of `App` that the code reads back as an `App` record.  A null window
and a null result of `new (std::nothrow)` are outside the model.
-/

namespace Raytracing

/-! ## Driver-side constants (values of `vulkan_core.h` and `glfw3.h`) -/

/-- A `VkResult` code; `VK_SUCCESS` is zero, every other value is a failure. -/
abbrev VkResult := Int

def VK_SUCCESS : VkResult := 0

/-- A `VkBool32`. -/
abbrev VkBool32 := Nat

def VK_TRUE : VkBool32 := 1

def VK_FALSE : VkBool32 := 0

/-- The null handle. -/
def VK_NULL_HANDLE : Nat := 0

/-- Number of values of a `uint32_t`. -/
def UINT32_RANGE : Nat := 4294967296

def VK_FORMAT_B8G8R8A8_UNORM : Nat := 44

def VK_FORMAT_B8G8R8A8_SRGB : Nat := 50

def VK_COLOR_SPACE_SRGB_NONLINEAR_KHR : Nat := 0

def VK_IMAGE_USAGE_TRANSFER_DST_BIT : Nat := 2

def VK_IMAGE_USAGE_COLOR_ATTACHMENT_BIT : Nat := 16

def VK_SHARING_MODE_EXCLUSIVE : Nat := 0

def VK_COMPOSITE_ALPHA_OPAQUE_BIT_KHR : Nat := 1

/-! ## Data model -/

/-- The handles and host arrays the program allocates, named after the member
or local variable that holds them. -/
inductive Obj
  | window
  | vkInstance
  | surface
  | logical_device
  | swapchain
  | swapchain_images
  | cmd_pool
  | storage_image_image
  | storage_image_memory
  | storage_image_view
  | vertex_position_buffer
  | vertex_position_buffer_memory
  | index_buffer
  | index_buffer_memory
  | p_position_staging_buffer
  | p_position_staging_buffer_memory
  | p_staging_buffer
  | p_staging_buffer_memory
  | p_extension_names
  | p_devices
  | p_surface_formats
  | p_surface_present_modes
  | p_position_indices
  deriving DecidableEq, Repr

/-- The queue members filled by `vkGetDeviceQueue`. -/
inductive Queue
  | present_queue
  | graphics_queue
  | compute_queue
  deriving DecidableEq, Repr

structure VkSurfaceFormatKHR where
  format : Nat
  colorSpace : Nat
  deriving DecidableEq, Repr

structure VkExtent2D where
  width : Nat
  height : Nat
  deriving DecidableEq, Repr

/-- The fields of `VkSwapchainCreateInfoKHR` that `create_swapchain` sets. -/
structure VkSwapchainCreateInfoKHR where
  minImageCount : Nat
  imageFormat : Nat
  imageColorSpace : Nat
  imageExtent : VkExtent2D
  imageArrayLayers : Nat
  imageUsage : Nat
  imageSharingMode : Nat
  preTransform : Nat
  compositeAlpha : Nat
  presentMode : Nat
  clipped : VkBool32
  deriving DecidableEq, Repr

/-- One call made by the program, with the arguments and answers that the
claims are about. -/
inductive Call
  | glfwInit
  | glfwWindowHint
  | glfwCreateWindow (width height : Nat) (title : String)
  | glfwSetInputMode
  | glfwSetKeyCallback
  | glfwGetRequiredInstanceExtensions
  | new_array (o : Obj) (count : Nat)
  | delete_array (o : Obj)
  | delete_scalar (o : Obj)
  | vkCreateInstance (layers extensions : List String) (r : VkResult)
  | glfwCreateWindowSurface (r : VkResult)
  | vkEnumeratePhysicalDevices
  | vkGetPhysicalDeviceMemoryProperties
  | vkGetPhysicalDeviceSurfaceSupportKHR (queueFamilyIndex : Nat) (supported : VkBool32)
  | vkCreateDevice (extensions : List String) (r : VkResult)
  | vkGetDeviceQueue (queueFamilyIndex : Nat) (q : Queue)
  | vkGetDeviceProcAddr (name : String)
  | vkGetPhysicalDeviceSurfaceCapabilitiesKHR
  | vkGetPhysicalDeviceSurfaceFormatsKHR
  | vkGetPhysicalDeviceSurfacePresentModesKHR
  | vkCreateSwapchainKHR (info : VkSwapchainCreateInfoKHR) (r : VkResult)
  | vkGetSwapchainImagesKHR
  | vkCreateCommandPool (r : VkResult)
  | vkCreateImage (r : VkResult)
  | vkGetImageMemoryRequirements
  | find_memory_type
  | vkAllocateMemory (memory : Obj) (r : VkResult)
  | vkBindImageMemory (r : VkResult)
  | vkCreateImageView (r : VkResult)
  | vkCreateBuffer (buffer : Obj) (size : Nat)
  | vkGetBufferMemoryRequirements (buffer : Obj)
  | vkBindBufferMemory (buffer memory : Obj)
  | vkMapMemory (memory : Obj) (size : Nat)
  | memcpy (size : Nat)
  | vkUnmapMemory (memory : Obj)
  | copy_buffer (src dst : Obj) (size : Nat)
  | vkDestroyBuffer (o : Obj)
  | vkFreeMemory (o : Obj)
  | vkDestroyImageView
  | vkDestroyImage
  | vkDestroyCommandPool
  | vkDestroySwapchainKHR
  | vkDestroyDevice
  | vkDestroySurfaceKHR
  | vkDestroyInstance
  | glfwDestroyWindow
  | glfwTerminate
  | glfwWindowShouldClose (reading : Int)
  | glfwPollEvents
  deriving DecidableEq, Repr

/-- The answers of the windowing library and of the GPU driver during one
run.  The `uint32_t` answers are natural numbers below `UINT32_RANGE`. -/
structure Driver where
  glfw_extension_names : List String
  vkCreateInstance : VkResult
  glfwCreateWindowSurface : VkResult
  devices : List Nat
  is_present_supported : VkBool32
  vkCreateDevice : VkResult
  minImageCount : Nat
  maxImageCount : Nat
  currentExtent : VkExtent2D
  currentTransform : Nat
  surface_formats : List VkSurfaceFormatKHR
  present_modes : List Nat
  vkCreateSwapchainKHR : VkResult
  swapchain_image_count : Nat
  vkCreateCommandPool : VkResult
  vkCreateImage : VkResult
  vkAllocateMemory : VkResult
  vkBindImageMemory : VkResult
  vkCreateImageView : VkResult

/-- The members of `App` that the code reads back, the bytes held by the two
device-local mesh buffers, and the trace of calls made so far.
`sizeof_Vertex` stands for `sizeof(App::Vertex)` and `vertices` for the bytes
of the member `vertices`, both declared in `app.hpp`. -/
structure App where
  width : Nat
  height : Nat
  sizeof_Vertex : Nat
  vertices : List Nat
  physical_device : Nat
  generic_queue_index : Nat
  image_count : Nat
  swapchain_image_format : Nat
  vertex_position_buffer_data : List Nat
  index_buffer_data : List Nat
  trace : List Call

/-- Record one call at the end of the trace. -/
def App.log (app : App) (c : Call) : App :=
  { app with trace := app.trace ++ [c] }

/-- How a member function ends: it returns, it aborts the process through
`stx::panic`, or it reads an array outside its bounds. -/
inductive Outcome
  | done (app : App)
  | panicked (msg : String) (app : App)
  | out_of_bounds (app : App)

/-- The state at the end, whichever way the function ended. -/
def Outcome.app : Outcome → App
  | .done app => app
  | .panicked _ app => app
  | .out_of_bounds app => app

/-- Sequencing of two member functions: the second runs only when the first
returned. -/
def Outcome.andThen (o : Outcome) (f : App → Outcome) : Outcome :=
  match o with
  | .done app => f app
  | .panicked msg app => .panicked msg app
  | .out_of_bounds app => .out_of_bounds app

/-! ## `App::create_surface` -/

/-- The loop of lines 39 to 41: `p_extension_names[i] = p_glfw_extension_names[i]`
for the `remaining` indices starting at `i`. -/
def copy_extension_names (p_glfw_extension_names : List String) :
    (remaining i : Nat) → List String → List String
  | 0, _, p_extension_names => p_extension_names
  | remaining + 1, i, p_extension_names =>
    copy_extension_names p_glfw_extension_names remaining (i + 1)
      (p_extension_names.set i (p_glfw_extension_names.getD i ""))

/-- The member function `App::create_surface`.  The extension array has
`extension_count` slots; writing the last name outside of it is an
out-of-bounds access. -/
def App.create_surface (d : Driver) (app : App) : Outcome :=
  let app := app.log .glfwInit
  let app := app.log .glfwWindowHint
  let app := app.log .glfwWindowHint
  let app := app.log (.glfwCreateWindow 800 600 "Raytracing Demo")
  let app := app.log .glfwSetInputMode
  let app := app.log .glfwSetKeyCallback
  let glfw_extension_count := d.glfw_extension_names.length
  let app := app.log .glfwGetRequiredInstanceExtensions
  let extension_count := (glfw_extension_count + 1) % UINT32_RANGE
  let app := app.log (.new_array .p_extension_names extension_count)
  if extension_count ≤ glfw_extension_count then .out_of_bounds app
  else
    let p_extension_names :=
      copy_extension_names d.glfw_extension_names glfw_extension_count 0
        (List.replicate extension_count "")
    let p_extension_names :=
      p_extension_names.set glfw_extension_count "VK_KHR_get_physical_device_properties2"
    let layer_names := ["VK_LAYER_KHRONOS_validation"]
    let app := app.log (.vkCreateInstance layer_names p_extension_names d.vkCreateInstance)
    if d.vkCreateInstance ≠ VK_SUCCESS then .panicked "Failed to create instance!" app
    else
      -- the body of the `if` around `glfwCreateWindowSurface` is empty
      let app := app.log (.glfwCreateWindowSurface d.glfwCreateWindowSurface)
      let app := app.log (.delete_array .p_extension_names)
      .done app

/-! ## `App::create_physical_device` -/

/-- The member function `App::create_physical_device`: it selects the device at
index 1 of the enumeration. -/
def App.create_physical_device (d : Driver) (app : App) : Outcome :=
  let device_count := d.devices.length
  let app := app.log .vkEnumeratePhysicalDevices
  let app := app.log (.new_array .p_devices device_count)
  let app := app.log .vkEnumeratePhysicalDevices
  match d.devices[1]? with
  | none => .out_of_bounds app
  | some device =>
    let app := { app with physical_device := device }
    if app.physical_device = VK_NULL_HANDLE then
      .panicked "Failed to select a physical device!" app
    else
      let app := app.log .vkGetPhysicalDeviceMemoryProperties
      let app := app.log (.delete_array .p_devices)
      .done app

/-! ## `App::create_logical_device` -/

def device_enabled_extension_names : List String :=
  [ "VK_KHR_swapchain",
    "VK_KHR_ray_tracing_pipeline",
    "VK_KHR_acceleration_structure",
    "VK_KHR_spirv_1_4",
    "VK_KHR_shader_float_controls",
    "VK_KHR_get_memory_requirements2",
    "VK_EXT_descriptor_indexing",
    "VK_KHR_buffer_device_address",
    "VK_KHR_deferred_host_operations",
    "VK_KHR_pipeline_library",
    "VK_KHR_maintenance3",
    "VK_KHR_maintenance1" ]

/-- The member function `App::create_logical_device`. -/
def App.create_logical_device (d : Driver) (app : App) : Outcome :=
  let app := { app with generic_queue_index := 0 }
  let is_present_supported := d.is_present_supported
  let app := app.log
    (.vkGetPhysicalDeviceSurfaceSupportKHR app.generic_queue_index is_present_supported)
  if is_present_supported ≠ VK_TRUE then
    .panicked "Surface presentation is not supported!" app
  else
    let app := app.log (.vkCreateDevice device_enabled_extension_names d.vkCreateDevice)
    if d.vkCreateDevice ≠ VK_SUCCESS then
      .panicked "Failed to create logical device!" app
    else
      let app := app.log (.vkGetDeviceQueue app.generic_queue_index .present_queue)
      let app := app.log (.vkGetDeviceQueue app.generic_queue_index .graphics_queue)
      let app := app.log (.vkGetDeviceQueue app.generic_queue_index .compute_queue)
      .done app

/-! ## `App::load_every_pfn` -/

/-- The member function `App::load_every_pfn`. -/
def App.load_every_pfn (app : App) : Outcome :=
  let app := app.log (.vkGetDeviceProcAddr "vkGetBufferDeviceAddressKHR")
  let app := app.log (.vkGetDeviceProcAddr "vkCmdBuildAccelerationStructuresKHR")
  let app := app.log (.vkGetDeviceProcAddr "vkBuildAccelerationStructuresKHR")
  let app := app.log (.vkGetDeviceProcAddr "vkCreateAccelerationStructureKHR")
  let app := app.log (.vkGetDeviceProcAddr "vkDestroyAccelerationStructureKHR")
  let app := app.log (.vkGetDeviceProcAddr "vkGetAccelerationStructureBuildSizesKHR")
  let app := app.log (.vkGetDeviceProcAddr "vkGetAccelerationStructureDeviceAddressKHR")
  let app := app.log (.vkGetDeviceProcAddr "vkCmdTraceRaysKHR")
  let app := app.log (.vkGetDeviceProcAddr "vkGetRayTracingShaderGroupHandlesKHR")
  let app := app.log (.vkGetDeviceProcAddr "vkCreateRayTracingPipelinesKHR")
  .done app

/-! ## `App::create_swapchain` -/

/-- Lines 230 to 234 of `app.cpp`: `image_count = minImageCount + 1` in
`uint32_t` arithmetic, replaced by `maxImageCount` when that is positive and
smaller. -/
def requested_image_count (minImageCount maxImageCount : Nat) : Nat :=
  let image_count := (minImageCount + 1) % UINT32_RANGE
  if maxImageCount > 0 ∧ image_count > maxImageCount then maxImageCount
  else image_count

/-- The member function `App::create_swapchain`. -/
def App.create_swapchain (d : Driver) (app : App) : Outcome :=
  let app := app.log .vkGetPhysicalDeviceSurfaceCapabilitiesKHR
  let app := app.log .vkGetPhysicalDeviceSurfaceFormatsKHR
  let app := app.log (.new_array .p_surface_formats d.surface_formats.length)
  let app := app.log .vkGetPhysicalDeviceSurfaceFormatsKHR
  let app := app.log .vkGetPhysicalDeviceSurfacePresentModesKHR
  let app := app.log (.new_array .p_surface_present_modes d.present_modes.length)
  let app := app.log .vkGetPhysicalDeviceSurfacePresentModesKHR
  match d.surface_formats[0]? with
  | none => .out_of_bounds app
  | some surface_format =>
    match d.present_modes[0]? with
    | none => .out_of_bounds app
    | some present_mode =>
      let extent := d.currentExtent
      let app := { app with
        image_count := requested_image_count d.minImageCount d.maxImageCount }
      let swapchain_create_info : VkSwapchainCreateInfoKHR :=
        { minImageCount := app.image_count
          imageFormat := VK_FORMAT_B8G8R8A8_SRGB
          imageColorSpace := VK_COLOR_SPACE_SRGB_NONLINEAR_KHR
          imageExtent := extent
          imageArrayLayers := 1
          imageUsage :=
            VK_IMAGE_USAGE_COLOR_ATTACHMENT_BIT ||| VK_IMAGE_USAGE_TRANSFER_DST_BIT
          imageSharingMode := VK_SHARING_MODE_EXCLUSIVE
          preTransform := d.currentTransform
          compositeAlpha := VK_COMPOSITE_ALPHA_OPAQUE_BIT_KHR
          presentMode := present_mode
          clipped := VK_TRUE }
      let app := app.log (.vkCreateSwapchainKHR swapchain_create_info d.vkCreateSwapchainKHR)
      if d.vkCreateSwapchainKHR ≠ VK_SUCCESS then
        .panicked "Failed to create a swapchain!" app
      else
        let app := app.log .vkGetSwapchainImagesKHR
        let app := { app with image_count := d.swapchain_image_count }
        let app := app.log (.new_array .swapchain_images app.image_count)
        let app := app.log .vkGetSwapchainImagesKHR
        let app := { app with swapchain_image_format := surface_format.format }
        let app := app.log (.delete_array .p_surface_formats)
        let app := app.log (.delete_array .p_surface_present_modes)
        .done app

/-- The create infos handed to `vkCreateSwapchainKHR` in a trace, in order. -/
def swapchain_requests : List Call → List VkSwapchainCreateInfoKHR
  | [] => []
  | .vkCreateSwapchainKHR info _ :: rest => info :: swapchain_requests rest
  | _ :: rest => swapchain_requests rest

/-! ## `App::create_cmd_pool` and `App::create_storage_image` -/

/-- The member function `App::create_cmd_pool`. -/
def App.create_cmd_pool (d : Driver) (app : App) : Outcome :=
  let app := app.log (.vkCreateCommandPool d.vkCreateCommandPool)
  if d.vkCreateCommandPool ≠ VK_SUCCESS then
    .panicked "Failed to create a command pool!" app
  else .done app

/-- The member function `App::create_storage_image`. -/
def App.create_storage_image (d : Driver) (app : App) : Outcome :=
  let app := app.log (.vkCreateImage d.vkCreateImage)
  if d.vkCreateImage ≠ VK_SUCCESS then .panicked "Failed to create image!" app
  else
    let app := app.log .vkGetImageMemoryRequirements
    let app := app.log .find_memory_type
    let app := app.log (.vkAllocateMemory .storage_image_memory d.vkAllocateMemory)
    if d.vkAllocateMemory ≠ VK_SUCCESS then
      .panicked "Faile to allocate image memory!" app
    else
      let app := app.log (.vkBindImageMemory d.vkBindImageMemory)
      if d.vkBindImageMemory ≠ VK_SUCCESS then
        .panicked "Failed to bind image memory!" app
      else
        let app := app.log (.vkCreateImageView d.vkCreateImageView)
        if d.vkCreateImageView ≠ VK_SUCCESS then
          .panicked "Failed to create an image view" app
        else .done app

/-! ## Mesh upload: `App::create_vertex_buffer` and `App::create_index_buffer` -/

/-- The call `memcpy(dst, src, n)`: the destination receives the first `n`
bytes of the source. -/
def memcpy (src : List Nat) (n : Nat) : List Nat :=
  src.take n

/-- Modelled from the spec: `copy_buffer` of `memory.hpp`, which is not among
the source files.  The spec has it "copy to device-local memory via a one-shot
command buffer submission, synchronously waited on"; the destination buffer
receives the first `size` bytes of the source buffer. -/
def copy_buffer (src : List Nat) (size : Nat) : List Nat :=
  src.take size

/-- The four bytes of a `uint32_t`, least significant first. -/
def uint32_bytes (v : Nat) : List Nat :=
  [v % 256, v / 256 % 256, v / 65536 % 256, v / 16777216 % 256]

/-- The value of `sizeof(uint32_t)`. -/
def sizeof_uint32_t : Nat := 4

/-- The host index array filled at lines 435 to 438. -/
def p_position_indices : List Nat := [0, 1, 2]

/-- The bytes of the host index array. -/
def p_position_indices_bytes : List Nat :=
  uint32_bytes 0 ++ uint32_bytes 1 ++ uint32_bytes 2

/-- Modelled from the spec: `create_buffer` of `memory.hpp`, which is not among
the source files.  The spec names its two products, a "staging buffer" and the
"device-local memory" behind a mesh buffer; the order is the one the GPU API
imposes and lines 304 to 330 follow for the storage image: the buffer is
created first, its memory is allocated from the buffer's requirements and then
bound to it.  A failure inside the helper is outside the model. -/
def create_buffer (app : App) (buffer memory : Obj) (size : Nat) : App :=
  let app := app.log (.vkCreateBuffer buffer size)
  let app := app.log (.vkGetBufferMemoryRequirements buffer)
  let app := app.log (.vkAllocateMemory memory VK_SUCCESS)
  let app := app.log (.vkBindBufferMemory buffer memory)
  app

/-- The member function `App::create_vertex_buffer`. -/
def App.create_vertex_buffer (app : App) : Outcome :=
  let position_buffer_size := app.sizeof_Vertex * 3
  let app := create_buffer app .p_position_staging_buffer
    .p_position_staging_buffer_memory position_buffer_size
  let app := app.log (.vkMapMemory .p_position_staging_buffer_memory position_buffer_size)
  let p_position_data := memcpy app.vertices position_buffer_size
  let app := app.log (.memcpy position_buffer_size)
  let app := app.log (.vkUnmapMemory .p_position_staging_buffer_memory)
  let app := create_buffer app .vertex_position_buffer
    .vertex_position_buffer_memory position_buffer_size
  let app := app.log (.copy_buffer .p_position_staging_buffer .vertex_position_buffer
    position_buffer_size)
  let app := { app with
    vertex_position_buffer_data := copy_buffer p_position_data position_buffer_size }
  let app := app.log (.vkDestroyBuffer .p_position_staging_buffer)
  let app := app.log (.vkFreeMemory .p_position_staging_buffer_memory)
  .done app

/-- The member function `App::create_index_buffer`. -/
def App.create_index_buffer (app : App) : Outcome :=
  let num_faces := 1
  let buffer_size := sizeof_uint32_t * num_faces
  let app := app.log (.new_array .p_position_indices 3)
  let app := create_buffer app .p_staging_buffer .p_staging_buffer_memory buffer_size
  let app := app.log (.vkMapMemory .p_staging_buffer_memory buffer_size)
  let p_data := memcpy p_position_indices_bytes buffer_size
  let app := app.log (.memcpy buffer_size)
  let app := app.log (.vkUnmapMemory .p_staging_buffer_memory)
  let app := create_buffer app .index_buffer .index_buffer_memory buffer_size
  let app := app.log (.copy_buffer .p_staging_buffer .index_buffer buffer_size)
  let app := { app with index_buffer_data := copy_buffer p_data buffer_size }
  let app := app.log (.vkDestroyBuffer .p_staging_buffer)
  let app := app.log (.vkFreeMemory .p_staging_buffer_memory)
  let app := app.log (.delete_array .p_position_indices)
  .done app

/-! ## Stubs, bootstrap, render loop and teardown -/

/-- The member function `App::create_blas`: it builds a transform matrix and
discards it. -/
def App.create_blas (app : App) : Outcome :=
  .done app

/-- The member function `App::create_tlas`: its body is empty. -/
def App.create_tlas (app : App) : Outcome :=
  .done app

/-- The member function `App::initialize`. -/
def App.initialize (d : Driver) (app : App) : Outcome :=
  ( App.create_surface d app)
    |>.andThen (App.create_physical_device d)
    |>.andThen (App.create_logical_device d)
    |>.andThen App.load_every_pfn
    |>.andThen (App.create_swapchain d)
    |>.andThen (App.create_cmd_pool d)
    |>.andThen (App.create_storage_image d)
    |>.andThen App.create_vertex_buffer
    |>.andThen App.create_index_buffer
    |>.andThen App.create_blas
    |>.andThen App.create_tlas

/-- The member function `App::render_loop`, run against the successive answers
of `glfwWindowShouldClose`.  The result is `none` when the answers run out
before one of them is non-zero, that is, when the loop is still running. -/
def App.render_loop : List Int → App → Option App
  | [], _ => none
  | reading :: readings, app =>
    let app := app.log (.glfwWindowShouldClose reading)
    if reading = 0 then App.render_loop readings (app.log .glfwPollEvents)
    else some app

/-- The member function `App::free`. -/
def App.free (app : App) : App :=
  let app := app.log (.vkDestroyBuffer .vertex_position_buffer)
  let app := app.log (.vkFreeMemory .vertex_position_buffer_memory)
  let app := app.log (.vkDestroyBuffer .index_buffer)
  let app := app.log (.vkFreeMemory .index_buffer_memory)
  let app := app.log .vkDestroyImageView
  let app := app.log .vkDestroyImage
  let app := app.log (.vkFreeMemory .storage_image_memory)
  let app := app.log .vkDestroyCommandPool
  let app := app.log (.delete_scalar .swapchain_images)
  let app := app.log .vkDestroySwapchainKHR
  let app := app.log .vkDestroyDevice
  let app := app.log .vkDestroySurfaceKHR
  let app := app.log .vkDestroyInstance
  let app := app.log .glfwDestroyWindow
  let app := app.log .glfwTerminate
  app

/-! ## Vocabulary of the claims: creation and release of objects -/

/-- The objects a call brings into existence.  A creation call that reports a
failure creates nothing. -/
def Call.allocates : Call → List Obj
  | .glfwCreateWindow _ _ _ => [.window]
  | .new_array o _ => [o]
  | .vkCreateInstance _ _ r => if r = VK_SUCCESS then [.vkInstance] else []
  | .glfwCreateWindowSurface r => if r = VK_SUCCESS then [.surface] else []
  | .vkCreateDevice _ r => if r = VK_SUCCESS then [.logical_device] else []
  | .vkCreateSwapchainKHR _ r => if r = VK_SUCCESS then [.swapchain] else []
  | .vkCreateCommandPool r => if r = VK_SUCCESS then [.cmd_pool] else []
  | .vkCreateImage r => if r = VK_SUCCESS then [.storage_image_image] else []
  | .vkAllocateMemory memory r => if r = VK_SUCCESS then [memory] else []
  | .vkCreateImageView r => if r = VK_SUCCESS then [.storage_image_view] else []
  | .vkCreateBuffer buffer _ => [buffer]
  | _ => []

/-- The objects a call destroys or frees.  Every host array of the program
comes from `new[]`, which only `delete[]` releases: the scalar `delete` applied
to such an array is undefined behaviour and releases nothing here. -/
def Call.releases : Call → List Obj
  | .delete_array o => [o]
  | .vkDestroyBuffer o => [o]
  | .vkFreeMemory o => [o]
  | .vkDestroyImageView => [.storage_image_view]
  | .vkDestroyImage => [.storage_image_image]
  | .vkDestroyCommandPool => [.cmd_pool]
  | .vkDestroySwapchainKHR => [.swapchain]
  | .vkDestroyDevice => [.logical_device]
  | .vkDestroySurfaceKHR => [.surface]
  | .vkDestroyInstance => [.vkInstance]
  | .glfwDestroyWindow => [.window]
  | _ => []

/-- The buffers a call copies out of. -/
def Call.copies_from : Call → List Obj
  | .copy_buffer src _ _ => [src]
  | _ => []

/-- Calls that reach the GPU driver, as opposed to the windowing library and
the host allocator. -/
def Call.is_gpu_call : Call → Bool
  | .glfwInit => false
  | .glfwWindowHint => false
  | .glfwCreateWindow _ _ _ => false
  | .glfwSetInputMode => false
  | .glfwSetKeyCallback => false
  | .glfwGetRequiredInstanceExtensions => false
  | .new_array _ _ => false
  | .delete_array _ => false
  | .delete_scalar _ => false
  | .memcpy _ => false
  | .glfwDestroyWindow => false
  | .glfwTerminate => false
  | .glfwWindowShouldClose _ => false
  | .glfwPollEvents => false
  | _ => true

/-- Position of the first step whose objects include `o`. -/
def step_index (o : Obj) : List (List Obj) → Option Nat
  | [] => none
  | objs :: rest => if o ∈ objs then some 0 else (step_index o rest).map (· + 1)

/-- Number of steps whose objects include `o`, with multiplicity. -/
def step_count (o : Obj) : List (List Obj) → Nat
  | [] => 0
  | objs :: rest => objs.count o + step_count o rest

/-- Position in the trace of the call that creates `o`. -/
def created_at (o : Obj) (trace : List Call) : Option Nat :=
  step_index o (trace.map Call.allocates)

/-- Position in the trace of the first call that releases `o`. -/
def released_at (o : Obj) (trace : List Call) : Option Nat :=
  step_index o (trace.map Call.releases)

/-- Position in the trace of the first buffer copy that reads `o`. -/
def copied_at (o : Obj) (trace : List Call) : Option Nat :=
  step_index o (trace.map Call.copies_from)

/-- Both positions exist and the first is strictly smaller. -/
def strictly_before : Option Nat → Option Nat → Bool
  | some i, some j => decide (i < j)
  | _, _ => false

/-- Whether `a` is created by an earlier call than `b`. -/
def created_before (a b : Obj) (trace : List Call) : Bool :=
  strictly_before (created_at a trace) (created_at b trace)

/-- Whether `a` is released by an earlier call than `b`. -/
def released_before (a b : Obj) (trace : List Call) : Bool :=
  strictly_before (released_at a trace) (released_at b trace)

/-- How many times `o` is created in the trace. -/
def allocation_count (o : Obj) (trace : List Call) : Nat :=
  step_count o (trace.map Call.allocates)

/-- How many times `o` is released in the trace. -/
def release_count (o : Obj) (trace : List Call) : Nat :=
  step_count o (trace.map Call.releases)

/-- The GPU objects that outlive the bootstrap and are torn down by `App::free`. -/
def gpu_objects : List Obj :=
  [ .vkInstance, .surface, .logical_device, .swapchain, .cmd_pool,
    .storage_image_image, .storage_image_memory, .storage_image_view,
    .vertex_position_buffer, .vertex_position_buffer_memory,
    .index_buffer, .index_buffer_memory ]

/-- Every handle and host array of the program. -/
def every_object : List Obj :=
  [ .window, .vkInstance, .surface, .logical_device, .swapchain, .swapchain_images,
    .cmd_pool, .storage_image_image, .storage_image_memory, .storage_image_view,
    .vertex_position_buffer, .vertex_position_buffer_memory,
    .index_buffer, .index_buffer_memory,
    .p_position_staging_buffer, .p_position_staging_buffer_memory,
    .p_staging_buffer, .p_staging_buffer_memory,
    .p_extension_names, .p_devices, .p_surface_formats, .p_surface_present_modes,
    .p_position_indices ]

/-- The pairs `(a, b)`, `a` created before `b`, that `App::free` does not
tear down in reverse: any two of the four mesh objects (vertex buffer, its
memory, index buffer, its memory), and the storage image with its memory. -/
def forward_pairs : List (Obj × Obj) :=
  [ (.vertex_position_buffer, .vertex_position_buffer_memory),
    (.vertex_position_buffer, .index_buffer),
    (.vertex_position_buffer, .index_buffer_memory),
    (.vertex_position_buffer_memory, .index_buffer),
    (.vertex_position_buffer_memory, .index_buffer_memory),
    (.index_buffer, .index_buffer_memory),
    (.storage_image_image, .storage_image_memory) ]

/-! ## Sample runs -/

def VK_ERROR_INITIALIZATION_FAILED : VkResult := -3

def VK_PRESENT_MODE_IMMEDIATE_KHR : Nat := 0

def VK_PRESENT_MODE_FIFO_KHR : Nat := 2

/-- A driver on which every call succeeds: two physical devices, and a surface
whose first format is `VK_FORMAT_B8G8R8A8_UNORM`. -/
def sample_driver : Driver :=
  { glfw_extension_names := ["VK_KHR_surface", "VK_KHR_xcb_surface"]
    vkCreateInstance := VK_SUCCESS
    glfwCreateWindowSurface := VK_SUCCESS
    devices := [4096, 8192]
    is_present_supported := VK_TRUE
    vkCreateDevice := VK_SUCCESS
    minImageCount := 2
    maxImageCount := 8
    currentExtent := { width := 800, height := 600 }
    currentTransform := 1
    surface_formats :=
      [ { format := VK_FORMAT_B8G8R8A8_UNORM, colorSpace := VK_COLOR_SPACE_SRGB_NONLINEAR_KHR },
        { format := VK_FORMAT_B8G8R8A8_SRGB, colorSpace := VK_COLOR_SPACE_SRGB_NONLINEAR_KHR } ]
    present_modes := [VK_PRESENT_MODE_FIFO_KHR, VK_PRESENT_MODE_IMMEDIATE_KHR]
    vkCreateSwapchainKHR := VK_SUCCESS
    swapchain_image_count := 3
    vkCreateCommandPool := VK_SUCCESS
    vkCreateImage := VK_SUCCESS
    vkAllocateMemory := VK_SUCCESS
    vkBindImageMemory := VK_SUCCESS
    vkCreateImageView := VK_SUCCESS }

/-- The same driver, except that window surface creation reports a failure. -/
def surface_failure_driver : Driver :=
  { sample_driver with glfwCreateWindowSurface := VK_ERROR_INITIALIZATION_FAILED }

/-- The same driver, except that the queue family cannot present. -/
def no_present_driver : Driver :=
  { sample_driver with is_present_supported := VK_FALSE }

/-- The same driver, except that the surface puts no upper limit on the number
of images (`maxImageCount` is zero). -/
def unlimited_driver : Driver :=
  { sample_driver with maxImageCount := 0 }

/-- An `App` before `initialize`: an 800 by 600 target, one-byte vertices, no
call made yet. -/
def sample_app : App :=
  { width := 800
    height := 600
    sizeof_Vertex := 1
    vertices := [7, 8, 9]
    physical_device := 0
    generic_queue_index := 0
    image_count := 0
    swapchain_image_format := 0
    vertex_position_buffer_data := []
    index_buffer_data := []
    trace := [] }

/-- The state in which `App::initialize` leaves the sample `App` on the sample
driver. -/
def sample_run : App :=
  ( App.initialize sample_driver sample_app).app

/-- The layer and extension names handed to `vkCreateInstance` in a trace, in
order. -/
def instance_requests : List Call → List (List String × List String)
  | [] => []
  | .vkCreateInstance layers extensions _ :: rest =>
    (layers, extensions) :: instance_requests rest
  | _ :: rest => instance_requests rest

/-- The same driver, except that the windowing library requires 4294967295
instance extensions, the largest `uint32_t` count. -/
def crowded_driver : Driver :=
  { sample_driver with
    glfw_extension_names := List.replicate 4294967295 "VK_KHR_surface" }

/-- The same driver, except that the enumeration reports one physical device. -/
def single_device_driver : Driver :=
  { sample_driver with devices := [4096] }

/-! ## Keyboard input: `key_callback` -/

def GLFW_RELEASE : Int := 0

def GLFW_PRESS : Int := 1

def GLFW_REPEAT : Int := 2

/-- The static `key_down_index`: 500 entries of type `char`, zero-initialised. -/
def key_down_index : List Int :=
  List.replicate 500 0

/-- The assignment `table[index] = value` with an `int` index: `none` when the
index is outside the array. -/
def array_write (table : List Int) (index value : Int) : Option (List Int) :=
  if 0 ≤ index ∧ index < (table.length : Int) then some (table.set index.toNat value)
  else none

/-- The function `key_callback`, from the table before the call to the table
after it: the two `if` statements of lines 16 to 21, one after the other. -/
def key_callback (table : List Int) (key action : Int) : Option (List Int) :=
  (if action = GLFW_PRESS then array_write table key 1 else some table).bind fun table =>
    if action = GLFW_RELEASE then array_write table key 0 else some table

/-- A sequence of callbacks, given as pairs of a key and an action, each run on
the table left by the one before. -/
def key_callbacks : List Int → List (Int × Int) → Option (List Int)
  | table, [] => some table
  | table, (key, action) :: rest =>
    (key_callback table key action).bind fun table => key_callbacks table rest

end Raytracing

/-! # The second prototype: `crow::game` of `window.cpp` -/

namespace crow

/-- The calls made inside the `try` block of `game::initialize`. -/
inductive Step
  | SDL_CreateWindow
  | SDL_GetError
  | make_vk_instance_extensions
  | make_vk_layer_names
  | make_vk_instance_info
  | createInstance
  | SDL_Vulkan_CreateSurface
  | find_vk_physical_device
  | make_vk_device_extensions
  | make_vk_queue_indices
  | make_vk_logical_device
  deriving DecidableEq, Repr

/-- What a `throw` carries: an object derived from `std::exception`, with its
`what()` text, or an object of any other type. -/
inductive Thrown
  | std_exception (what : String)
  | other
  deriving DecidableEq, Repr

/-- The answers of SDL and of the helpers of `vk_init.hpp` during one run:
the window pointer (zero is `nullptr`), the text of `SDL_GetError`, whether
`SDL_Vulkan_CreateSurface` answers `SDL_TRUE`, and for each C++ helper what it
throws, if it throws. -/
structure Host where
  SDL_CreateWindow : Nat
  SDL_GetError : String
  SDL_Vulkan_CreateSurface : Bool
  throws : Step → Option Thrown

/-- The member `p_window`, the steps executed so far, and the text written to
`std::cerr`. -/
structure game where
  p_window : Nat
  executed : List Step
  cerr : String

/-- How `game::initialize` ends: it returns, or an exception leaves it. -/
inductive Result
  | returned (g : game)
  | thrown (e : Thrown) (g : game)

/-- The state at the end, whichever way the function ended. -/
def Result.game : Result → game
  | .returned g => g
  | .thrown _ g => g

/-- What leaves the function, if an exception does. -/
def Result.exception : Result → Option Thrown
  | .returned _ => none
  | .thrown e _ => some e

/-- Record one executed step. -/
def game.run (g : game) (s : Step) : game :=
  { g with executed := g.executed ++ [s] }

/-- A call of a C++ helper followed by the rest of the block: when the helper
throws, the rest is skipped. -/
def game.call (h : Host) (s : Step) (g : game) (rest : game → Result) : Result :=
  let g := g.run s
  match h.throws s with
  | some e => .thrown e g
  | none => rest g

/-- Lines 19 to 53: the body of the `try` block. -/
def game.try_block (h : Host) (g : game) : Result :=
  let g := g.run .SDL_CreateWindow
  let g := { g with p_window := h.SDL_CreateWindow }
  if g.p_window = 0 then
    let g := g.run .SDL_GetError
    .thrown (.std_exception h.SDL_GetError) g
  else
    game.call h .make_vk_instance_extensions g fun g =>
    game.call h .make_vk_layer_names g fun g =>
    game.call h .make_vk_instance_info g fun g =>
    game.call h .createInstance g fun g =>
    let g := g.run .SDL_Vulkan_CreateSurface
    if h.SDL_Vulkan_CreateSurface = false then
      let g := g.run .SDL_GetError
      .thrown (.std_exception h.SDL_GetError) g
    else
      game.call h .find_vk_physical_device g fun g =>
      game.call h .make_vk_device_extensions g fun g =>
      game.call h .make_vk_queue_indices g fun g =>
      game.call h .make_vk_logical_device g fun g =>
      .returned g

/-- The member function `crow::game::initialize`: the `try` block, and the handler
`catch (std::exception& e)` that writes `e.what()` and a newline to
`std::cerr` and rethrows. -/
def game.initialize (h : Host) (g : game) : Result :=
  match game.try_block h g with
  | .thrown (.std_exception what) g =>
    .thrown (.std_exception what) { g with cerr := g.cerr ++ what ++ "\n" }
  | r => r

/-- The setup steps in the order of the source. -/
def game.order : List Step :=
  [ .SDL_CreateWindow, .make_vk_instance_extensions, .make_vk_layer_names,
    .make_vk_instance_info, .createInstance, .SDL_Vulkan_CreateSurface,
    .find_vk_physical_device, .make_vk_device_extensions, .make_vk_queue_indices,
    .make_vk_logical_device ]

/-- The `what()` text of the `std::exception` with which a setup step fails,
if it fails so: window creation answering `nullptr` and surface creation
answering `SDL_FALSE` fail with the text of `SDL_GetError`. -/
def Host.failure (h : Host) : Step → Option String
  | .SDL_CreateWindow => if h.SDL_CreateWindow = 0 then some h.SDL_GetError else none
  | .SDL_Vulkan_CreateSurface =>
    if h.SDL_Vulkan_CreateSurface = false then some h.SDL_GetError else none
  | .SDL_GetError => none
  | s =>
    match h.throws s with
    | some (.std_exception what) => some what
    | _ => none

/-- A setup step completes without failing. -/
def Host.succeeds (h : Host) : Step → Bool
  | .SDL_CreateWindow => decide (h.SDL_CreateWindow ≠ 0)
  | .SDL_Vulkan_CreateSurface => h.SDL_Vulkan_CreateSurface
  | .SDL_GetError => true
  | s => (h.throws s).isNone

/-- A host on which window creation answers `nullptr`. -/
def no_window_host : Host :=
  { SDL_CreateWindow := 0
    SDL_GetError := "No available video device"
    SDL_Vulkan_CreateSurface := true
    throws := fun _ => none }

/-- A host on which the window is created, every helper returns, and surface
creation answers `SDL_FALSE`. -/
def no_surface_host : Host :=
  { SDL_CreateWindow := 4096
    SDL_GetError := "VK_KHR_surface extension is not enabled"
    SDL_Vulkan_CreateSurface := false
    throws := fun _ => none }

/-- A `game` before `initialize`. -/
def fresh_game : game :=
  { p_window := 0, executed := [], cerr := "" }

end crow

/-! # Theorems -/

namespace Raytracing

/-! ## Bookkeeping lemmas -/

@[simp]
theorem App.log_trace (app : App) (c : Call) : (app.log c).trace = app.trace ++ [c] :=
  rfl

theorem swapchain_requests_append (xs ys : List Call) :
    swapchain_requests (xs ++ ys) = swapchain_requests xs ++ swapchain_requests ys := by
  induction xs with
  | nil => rfl
  | cons c rest ih => cases c <;> simp [swapchain_requests, ih]

theorem Outcome.andThen_done {o : Outcome} {f : App → Outcome} {a : App} :
    o.andThen f = .done a ↔ ∃ b, o = .done b ∧ f b = .done a := by
  cases o <;> simp [Outcome.andThen]

theorem create_cmd_pool_done {d : Driver} {app a : App}
    (h : App.create_cmd_pool d app = .done a) :
    a.trace.map Call.allocates = app.trace.map Call.allocates ++ [[.cmd_pool]]
      ∧ a.trace.map Call.releases = app.trace.map Call.releases ++ [[]] := by
  unfold App.create_cmd_pool at h
  by_cases h1 : d.vkCreateCommandPool = VK_SUCCESS
  · simp [h1] at h
    subst h
    simp [Call.allocates, Call.releases]
  · simp [h1] at h

theorem create_storage_image_done {d : Driver} {app a : App}
    (h : App.create_storage_image d app = .done a) :
    a.trace.map Call.allocates = app.trace.map Call.allocates ++
          [[.storage_image_image], [], [], [.storage_image_memory], [], [.storage_image_view]]
      ∧ a.trace.map Call.releases = app.trace.map Call.releases ++ [[], [], [], [], [], []] := by
  unfold App.create_storage_image at h
  by_cases h1 : d.vkCreateImage = VK_SUCCESS <;>
  by_cases h2 : d.vkAllocateMemory = VK_SUCCESS <;>
  by_cases h3 : d.vkBindImageMemory = VK_SUCCESS <;>
  by_cases h4 : d.vkCreateImageView = VK_SUCCESS <;>
  simp [h1, h2, h3, h4] at h
  subst h
  simp [Call.allocates, Call.releases]

theorem create_surface_done {d : Driver} {app a : App}
    (h : App.create_surface d app = .done a) :
    a.trace.map Call.allocates = app.trace.map Call.allocates ++
          [[], [], [], [.window], [], [], [], [.p_extension_names], [.vkInstance],
           if d.glfwCreateWindowSurface = VK_SUCCESS then [.surface] else [], []]
      ∧ a.trace.map Call.releases = app.trace.map Call.releases ++
          [[], [], [], [], [], [], [], [], [], [], [.p_extension_names]] := by
  unfold App.create_surface at h
  by_cases h0 : (d.glfw_extension_names.length + 1) % UINT32_RANGE
      ≤ d.glfw_extension_names.length <;>
  by_cases h1 : d.vkCreateInstance = VK_SUCCESS <;>
  simp [h0, h1] at h
  subst h
  simp [Call.allocates, Call.releases]

theorem create_physical_device_done {d : Driver} {app a : App}
    (h : App.create_physical_device d app = .done a) :
    a.trace.map Call.allocates = app.trace.map Call.allocates ++
          [[], [.p_devices], [], [], []]
      ∧ a.trace.map Call.releases = app.trace.map Call.releases ++
          [[], [], [], [], [.p_devices]] := by
  unfold App.create_physical_device at h
  cases hd : d.devices[1]? with
  | none => simp [hd] at h
  | some device =>
    by_cases h1 : device = VK_NULL_HANDLE <;> simp [hd, h1] at h
    subst h
    simp [Call.allocates, Call.releases]

theorem create_logical_device_done {d : Driver} {app a : App}
    (h : App.create_logical_device d app = .done a) :
    a.trace.map Call.allocates = app.trace.map Call.allocates ++
          [[], [.logical_device], [], [], []]
      ∧ a.trace.map Call.releases = app.trace.map Call.releases ++
          [[], [], [], [], []] := by
  unfold App.create_logical_device at h
  by_cases h0 : d.is_present_supported = VK_TRUE <;>
  by_cases h1 : d.vkCreateDevice = VK_SUCCESS <;>
  simp [h0, h1] at h
  subst h
  simp [Call.allocates, Call.releases]

theorem load_every_pfn_done {app a : App}
    (h : App.load_every_pfn app = .done a) :
    a.trace.map Call.allocates = app.trace.map Call.allocates ++
          [[], [], [], [], [], [], [], [], [], []]
      ∧ a.trace.map Call.releases = app.trace.map Call.releases ++
          [[], [], [], [], [], [], [], [], [], []] := by
  unfold App.load_every_pfn at h
  simp at h
  subst h
  simp [Call.allocates, Call.releases]

theorem create_swapchain_done {d : Driver} {app a : App}
    (h : App.create_swapchain d app = .done a) :
    a.trace.map Call.allocates = app.trace.map Call.allocates ++
          [[], [], [.p_surface_formats], [], [], [.p_surface_present_modes], [],
           [.swapchain], [], [.swapchain_images], [], [], []]
      ∧ a.trace.map Call.releases = app.trace.map Call.releases ++
          [[], [], [], [], [], [], [], [], [], [], [],
           [.p_surface_formats], [.p_surface_present_modes]] := by
  unfold App.create_swapchain at h
  cases hf : d.surface_formats[0]? with
  | none => simp [hf] at h
  | some surface_format =>
    cases hp : d.present_modes[0]? with
    | none => simp [hf, hp] at h
    | some present_mode =>
      by_cases h1 : d.vkCreateSwapchainKHR = VK_SUCCESS <;> simp [hf, hp, h1] at h
      subst h
      simp [Call.allocates, Call.releases]

theorem create_vertex_buffer_done {app a : App}
    (h : App.create_vertex_buffer app = .done a) :
    a.trace.map Call.allocates = app.trace.map Call.allocates ++
          [[.p_position_staging_buffer], [], [.p_position_staging_buffer_memory], [],
           [], [], [],
           [.vertex_position_buffer], [], [.vertex_position_buffer_memory], [],
           [], [], []]
      ∧ a.trace.map Call.releases = app.trace.map Call.releases ++
          [[], [], [], [], [], [], [], [], [], [], [], [],
           [.p_position_staging_buffer], [.p_position_staging_buffer_memory]] := by
  unfold App.create_vertex_buffer at h
  simp at h
  subst h
  simp [create_buffer, Call.allocates, Call.releases]

theorem create_index_buffer_done {app a : App}
    (h : App.create_index_buffer app = .done a) :
    a.trace.map Call.allocates = app.trace.map Call.allocates ++
          [[.p_position_indices],
           [.p_staging_buffer], [], [.p_staging_buffer_memory], [],
           [], [], [],
           [.index_buffer], [], [.index_buffer_memory], [],
           [], [], [], []]
      ∧ a.trace.map Call.releases = app.trace.map Call.releases ++
          [[], [], [], [], [], [], [], [], [], [], [], [], [],
           [.p_staging_buffer], [.p_staging_buffer_memory], [.p_position_indices]] := by
  unfold App.create_index_buffer at h
  simp at h
  subst h
  simp [create_buffer, Call.allocates, Call.releases]

theorem free_footprint (app : App) :
    (App.free app).trace.map Call.allocates = app.trace.map Call.allocates ++
          [[], [], [], [], [], [], [], [], [], [], [], [], [], [], []]
      ∧ (App.free app).trace.map Call.releases = app.trace.map Call.releases ++
          [[.vertex_position_buffer], [.vertex_position_buffer_memory], [.index_buffer],
           [.index_buffer_memory], [.storage_image_view], [.storage_image_image],
           [.storage_image_memory], [.cmd_pool], [], [.swapchain],
           [.logical_device], [.surface], [.vkInstance], [.window], []] := by
  simp [App.free, Call.allocates, Call.releases]

theorem initialize_footprint {d : Driver} {app a : App} (h0 : app.trace = [])
    (h : App.initialize d app = .done a) :
    a.trace.map Call.allocates =
          [[], [], [], [.window], [], [], [], [.p_extension_names], [.vkInstance],
           if d.glfwCreateWindowSurface = VK_SUCCESS then [.surface] else [], []]
          ++ [[], [.p_devices], [], [], []]
          ++ [[], [.logical_device], [], [], []]
          ++ [[], [], [], [], [], [], [], [], [], []]
          ++ [[], [], [.p_surface_formats], [], [], [.p_surface_present_modes], [],
              [.swapchain], [], [.swapchain_images], [], [], []]
          ++ [[.cmd_pool]]
          ++ [[.storage_image_image], [], [], [.storage_image_memory], [],
              [.storage_image_view]]
          ++ [[.p_position_staging_buffer], [], [.p_position_staging_buffer_memory], [],
              [], [], [],
              [.vertex_position_buffer], [], [.vertex_position_buffer_memory], [],
              [], [], []]
          ++ [[.p_position_indices],
              [.p_staging_buffer], [], [.p_staging_buffer_memory], [],
              [], [], [],
              [.index_buffer], [], [.index_buffer_memory], [],
              [], [], [], []]
      ∧ a.trace.map Call.releases =
          [[], [], [], [], [], [], [], [], [], [], [.p_extension_names]]
          ++ [[], [], [], [], [.p_devices]]
          ++ [[], [], [], [], []]
          ++ [[], [], [], [], [], [], [], [], [], []]
          ++ [[], [], [], [], [], [], [], [], [], [], [],
              [.p_surface_formats], [.p_surface_present_modes]]
          ++ [[]]
          ++ [[], [], [], [], [], []]
          ++ [[], [], [], [], [], [], [], [], [], [], [], [],
              [.p_position_staging_buffer], [.p_position_staging_buffer_memory]]
          ++ [[], [], [], [], [], [], [], [], [], [], [], [], [],
              [.p_staging_buffer], [.p_staging_buffer_memory], [.p_position_indices]] := by
  unfold App.initialize at h
  simp only [Outcome.andThen_done] at h
  obtain ⟨b11, ⟨b10, ⟨b9, ⟨b8, ⟨b7, ⟨b6, ⟨b5, ⟨b4, ⟨b3, ⟨b2, h1, h2⟩, h3⟩, h4⟩, h5⟩, h6⟩,
    h7⟩, h8⟩, h9⟩, h10⟩, h11⟩ := h
  have e1 := create_surface_done h1
  have e2 := create_physical_device_done h2
  have e3 := create_logical_device_done h3
  have e4 := load_every_pfn_done h4
  have e5 := create_swapchain_done h5
  have e6 := create_cmd_pool_done h6
  have e7 := create_storage_image_done h7
  have e8 := create_vertex_buffer_done h8
  have e9 := create_index_buffer_done h9
  simp only [App.create_blas, Outcome.done.injEq] at h10
  simp only [App.create_tlas, Outcome.done.injEq] at h11
  subst h10
  subst h11
  rw [e9.1, e8.1, e7.1, e6.1, e5.1, e4.1, e3.1, e2.1, e1.1,
    e9.2, e8.2, e7.2, e6.2, e5.2, e4.2, e3.2, e2.2, e1.2, h0]
  simp

/-! ## Swapchain image count -/

/-- C1, as stated, fails: on a surface that reports `minImageCount = 2` and
`maxImageCount = 0` the create info asks for 3 images, whereas
`min (minImageCount + 1) maxImageCount` is 0. -/
theorem create_swapchain_count_not_min :
    (swapchain_requests (App.create_swapchain unlimited_driver sample_app).app.trace).map
        (fun info => info.minImageCount) = [3]
      ∧ min (unlimited_driver.minImageCount + 1) unlimited_driver.maxImageCount = 0 := by
  decide

/-- C1, amended: whenever the surface reports at least one format and one
present mode, `create_swapchain` makes one swapchain request, and the
`minImageCount` of its create info is `minImageCount + 1` (in `uint32_t`
arithmetic) when `maxImageCount` is zero, and the smaller of that value and
`maxImageCount` otherwise. -/
theorem create_swapchain_requested_count (d : Driver) (app : App)
    (hf : d.surface_formats ≠ []) (hp : d.present_modes ≠ []) :
    (swapchain_requests (App.create_swapchain d app).app.trace).map
        (fun info => info.minImageCount)
      = (swapchain_requests app.trace).map (fun info => info.minImageCount) ++
        [if d.maxImageCount = 0 then (d.minImageCount + 1) % UINT32_RANGE
         else min ((d.minImageCount + 1) % UINT32_RANGE) d.maxImageCount] := by
  obtain ⟨f, fs, hfs⟩ := List.exists_cons_of_ne_nil hf
  obtain ⟨m, ms, hms⟩ := List.exists_cons_of_ne_nil hp
  have hcount : requested_image_count d.minImageCount d.maxImageCount
      = if d.maxImageCount = 0 then (d.minImageCount + 1) % UINT32_RANGE
        else min ((d.minImageCount + 1) % UINT32_RANGE) d.maxImageCount := by
    unfold requested_image_count
    by_cases h0 : d.maxImageCount = 0
    · simp [h0]
    · have hpos : d.maxImageCount > 0 := Nat.pos_of_ne_zero h0
      by_cases hgt : (d.minImageCount + 1) % UINT32_RANGE > d.maxImageCount
      · simp [h0, hpos, hgt, Nat.min_eq_right (Nat.le_of_lt hgt)]
      · simp [h0, hgt, Nat.min_eq_left (Nat.le_of_not_gt hgt)]
  unfold App.create_swapchain
  by_cases hr : d.vkCreateSwapchainKHR = VK_SUCCESS
  · simp [hfs, hms, hr, Outcome.app, swapchain_requests_append, swapchain_requests, hcount]
  · simp [hfs, hms, hr, Outcome.app, swapchain_requests_append, swapchain_requests, hcount]

/-- Witness of `create_swapchain_requested_count` on the sample driver. -/
theorem create_swapchain_requested_count_witness :
    (swapchain_requests (App.create_swapchain sample_driver sample_app).app.trace).map
        (fun info => info.minImageCount)
      = (swapchain_requests sample_app.trace).map (fun info => info.minImageCount) ++
        [if sample_driver.maxImageCount = 0
         then (sample_driver.minImageCount + 1) % UINT32_RANGE
         else min ((sample_driver.minImageCount + 1) % UINT32_RANGE)
           sample_driver.maxImageCount] :=
  create_swapchain_requested_count sample_driver sample_app (by decide) (by decide)

/-- C2, as stated, fails: with `minImageCount = maxImageCount = 4294967295`
the sum wraps to zero, zero does not exceed `maxImageCount`, and the computed
count 0 is below `minImageCount`. -/
theorem requested_image_count_wraps :
    4294967295 < UINT32_RANGE
      ∧ requested_image_count 4294967295 4294967295 = 0
      ∧ ¬ (4294967295 ≤ requested_image_count 4294967295 4294967295) := by
  decide

/-- C2, amended: for capabilities with `minImageCount` below `4294967295`
(so that `minImageCount + 1` does not wrap in `uint32_t`) and `maxImageCount`
zero or at least `minImageCount`, the computed count lies between
`minImageCount` and `maxImageCount` when `maxImageCount` is positive, and
equals `minImageCount + 1` when `maxImageCount` is zero. -/
theorem requested_image_count_bounds (minImageCount maxImageCount : Nat)
    (hmin : minImageCount + 1 < UINT32_RANGE)
    (hcap : maxImageCount = 0 ∨ minImageCount ≤ maxImageCount) :
    (0 < maxImageCount →
        minImageCount ≤ requested_image_count minImageCount maxImageCount
          ∧ requested_image_count minImageCount maxImageCount ≤ maxImageCount)
      ∧ (maxImageCount = 0 →
        requested_image_count minImageCount maxImageCount = minImageCount + 1) := by
  have hmod : (minImageCount + 1) % UINT32_RANGE = minImageCount + 1 :=
    Nat.mod_eq_of_lt hmin
  unfold requested_image_count
  simp only [hmod]
  constructor
  · intro hpos
    have hle : minImageCount ≤ maxImageCount := by
      rcases hcap with h0 | hle
      · omega
      · exact hle
    split_ifs with hc
    · exact ⟨hle, le_refl _⟩
    · constructor
      · omega
      · have : ¬ (minImageCount + 1 > maxImageCount) := fun h => hc ⟨hpos, h⟩
        omega
  · intro h0
    simp [h0]

/-- Witness of `requested_image_count_bounds` at `minImageCount = 2`,
`maxImageCount = 8`. -/
theorem requested_image_count_bounds_witness :
    (0 < 8 → 2 ≤ requested_image_count 2 8 ∧ requested_image_count 2 8 ≤ 8)
      ∧ (8 = 0 → requested_image_count 2 8 = 2 + 1) :=
  requested_image_count_bounds 2 8 (by decide) (Or.inr (by decide))

/-! ## Failure handling of the bootstrap -/

theorem create_surface_result {d : Driver} {app a : App}
    (h : App.create_surface d app = .done a) : d.vkCreateInstance = VK_SUCCESS := by
  unfold App.create_surface at h
  by_contra h1
  by_cases h0 : (d.glfw_extension_names.length + 1) % UINT32_RANGE
      ≤ d.glfw_extension_names.length <;>
  simp [h0, h1] at h

theorem create_logical_device_result {d : Driver} {app a : App}
    (h : App.create_logical_device d app = .done a) : d.vkCreateDevice = VK_SUCCESS := by
  unfold App.create_logical_device at h
  by_contra h1
  by_cases h0 : d.is_present_supported = VK_TRUE <;> simp [h0, h1] at h

theorem create_swapchain_result {d : Driver} {app a : App}
    (h : App.create_swapchain d app = .done a) : d.vkCreateSwapchainKHR = VK_SUCCESS := by
  unfold App.create_swapchain at h
  by_contra h1
  cases hf : d.surface_formats[0]? with
  | none => simp [hf] at h
  | some surface_format =>
    cases hp : d.present_modes[0]? with
    | none => simp [hf, hp] at h
    | some present_mode => simp [hf, hp, h1] at h

theorem create_cmd_pool_result {d : Driver} {app a : App}
    (h : App.create_cmd_pool d app = .done a) : d.vkCreateCommandPool = VK_SUCCESS := by
  unfold App.create_cmd_pool at h
  by_contra h1
  simp [h1] at h

theorem create_storage_image_result {d : Driver} {app a : App}
    (h : App.create_storage_image d app = .done a) :
    d.vkCreateImage = VK_SUCCESS ∧ d.vkAllocateMemory = VK_SUCCESS
      ∧ d.vkBindImageMemory = VK_SUCCESS ∧ d.vkCreateImageView = VK_SUCCESS := by
  unfold App.create_storage_image at h
  by_cases h1 : d.vkCreateImage = VK_SUCCESS <;>
  by_cases h2 : d.vkAllocateMemory = VK_SUCCESS <;>
  by_cases h3 : d.vkBindImageMemory = VK_SUCCESS <;>
  by_cases h4 : d.vkCreateImageView = VK_SUCCESS <;>
  simp [h1, h2, h3, h4] at h
  exact ⟨h1, h2, h3, h4⟩

/-- C3, evaluated at the failing input: when window surface creation reports
`VK_ERROR_INITIALIZATION_FAILED` and every other call succeeds, `initialize`
does not panic but runs to completion, the failed call being part of its
trace.  The surface is the only exception: `initialize` never runs to
completion when one of the eight other creation calls reports a failure. -/
theorem initialize_survives_surface_failure :
    (surface_failure_driver.glfwCreateWindowSurface ≠ VK_SUCCESS
      ∧ ∃ app, App.initialize surface_failure_driver sample_app = .done app
          ∧ Call.glfwCreateWindowSurface VK_ERROR_INITIALIZATION_FAILED ∈ app.trace)
      ∧ ∀ (d : Driver) (app a : App), App.initialize d app = .done a →
          d.vkCreateInstance = VK_SUCCESS ∧ d.vkCreateDevice = VK_SUCCESS
            ∧ d.vkCreateSwapchainKHR = VK_SUCCESS ∧ d.vkCreateCommandPool = VK_SUCCESS
            ∧ d.vkCreateImage = VK_SUCCESS ∧ d.vkAllocateMemory = VK_SUCCESS
            ∧ d.vkBindImageMemory = VK_SUCCESS ∧ d.vkCreateImageView = VK_SUCCESS := by
  refine ⟨⟨by decide, _, rfl, by decide⟩, ?_⟩
  intro d app a h
  unfold App.initialize at h
  simp only [Outcome.andThen_done] at h
  obtain ⟨b11, ⟨b10, ⟨b9, ⟨b8, ⟨b7, ⟨b6, ⟨b5, ⟨b4, ⟨b3, ⟨b2, h1, _⟩, h3⟩, _⟩, h5⟩, h6⟩,
    h7⟩, _⟩, _⟩, _⟩, _⟩ := h
  exact ⟨create_surface_result h1, create_logical_device_result h3,
    create_swapchain_result h5, create_cmd_pool_result h6, create_storage_image_result h7⟩

/-- C4: when the presentation query for queue family 0 answers anything but
`VK_TRUE`, `create_logical_device` panics with "Surface presentation is not
supported!" and the query is the only call it has made (no device creation, no
queue retrieval); when the query answers `VK_TRUE`, the next call is
`vkCreateDevice`. -/
theorem create_logical_device_presentation (d : Driver) (app : App) :
    (d.is_present_supported ≠ VK_TRUE →
        ∃ a, App.create_logical_device d app
            = .panicked "Surface presentation is not supported!" a
          ∧ a.trace = app.trace ++
              [.vkGetPhysicalDeviceSurfaceSupportKHR 0 d.is_present_supported])
      ∧ (d.is_present_supported = VK_TRUE →
        ∃ calls, (App.create_logical_device d app).app.trace = app.trace ++
          [.vkGetPhysicalDeviceSurfaceSupportKHR 0 VK_TRUE,
           .vkCreateDevice device_enabled_extension_names d.vkCreateDevice] ++ calls) := by
  constructor
  · intro h
    exact ⟨({ app with generic_queue_index := 0 }).log
        (.vkGetPhysicalDeviceSurfaceSupportKHR 0 d.is_present_supported),
      by simp [App.create_logical_device, h], by simp [App.log]⟩
  · intro h
    by_cases h1 : d.vkCreateDevice = VK_SUCCESS
    · exact ⟨[.vkGetDeviceQueue 0 .present_queue, .vkGetDeviceQueue 0 .graphics_queue,
        .vkGetDeviceQueue 0 .compute_queue],
        by simp [App.create_logical_device, h, h1, Outcome.app, App.log]⟩
    · exact ⟨[], by simp [App.create_logical_device, h, h1, Outcome.app, App.log]⟩

/-- Witness of `create_logical_device_presentation`: a queue family that cannot
present, and one that can. -/
theorem create_logical_device_presentation_witness :
    (∃ a, App.create_logical_device no_present_driver sample_app
          = .panicked "Surface presentation is not supported!" a
        ∧ a.trace = sample_app.trace ++
            [.vkGetPhysicalDeviceSurfaceSupportKHR 0 no_present_driver.is_present_supported])
      ∧ (∃ calls, (App.create_logical_device sample_driver sample_app).app.trace
          = sample_app.trace ++
            [.vkGetPhysicalDeviceSurfaceSupportKHR 0 VK_TRUE,
             .vkCreateDevice device_enabled_extension_names sample_driver.vkCreateDevice]
            ++ calls) :=
  ⟨(create_logical_device_presentation no_present_driver sample_app).1 (by decide),
   (create_logical_device_presentation sample_driver sample_app).2 rfl⟩

/-! ## Teardown -/

set_option maxRecDepth 8192

/-- C5, as stated, fails: on the sample run the vertex buffer is created
before the index buffer, and `free` destroys the vertex buffer first; likewise
the storage image is created before its memory and destroyed before it. -/
theorem free_not_reverse_of_creation :
    ∃ app, App.initialize sample_driver sample_app = .done app
      ∧ created_before .vertex_position_buffer .index_buffer app.trace = true
      ∧ released_before .index_buffer .vertex_position_buffer (App.free app).trace = false
      ∧ released_before .vertex_position_buffer .index_buffer (App.free app).trace = true
      ∧ created_before .storage_image_image .storage_image_memory app.trace = true
      ∧ released_before .storage_image_memory .storage_image_image (App.free app).trace
          = false :=
  ⟨_, rfl, by decide, by decide, by decide, by decide, by decide⟩

/-- C5, amended: after `initialize` has returned on a fresh `App`, `free`
destroys every GPU object before the window, and its last two calls are
`glfwDestroyWindow` and `glfwTerminate`; for GPU objects `a` created before
`b`, `free` destroys `b` before `a`, the pairs of `forward_pairs` left aside
(any two of the vertex buffer, its memory, the index buffer and its memory, and
the storage image with its memory): of those `free` destroys the first before
the second. -/
theorem free_reverse_of_creation (d : Driver) (app app1 : App) (h0 : app.trace = [])
    (hinit : App.initialize d app = .done app1) :
    (∀ a ∈ gpu_objects, ∀ b ∈ gpu_objects, created_before a b app1.trace = true →
        (a, b) ∉ forward_pairs → released_before b a (App.free app1).trace = true)
      ∧ (∀ p ∈ forward_pairs, released_before p.1 p.2 (App.free app1).trace = true)
      ∧ (∀ a ∈ gpu_objects, released_before a .window (App.free app1).trace = true)
      ∧ ∃ calls, (App.free app1).trace = calls ++ [.glfwDestroyWindow, .glfwTerminate] := by
  have hfoot := initialize_footprint h0 hinit
  have hfree := (free_footprint app1).2
  rw [hfoot.2] at hfree
  refine ⟨?_, ?_, ?_, ⟨app1.trace ++
    [ .vkDestroyBuffer .vertex_position_buffer, .vkFreeMemory .vertex_position_buffer_memory,
      .vkDestroyBuffer .index_buffer, .vkFreeMemory .index_buffer_memory,
      .vkDestroyImageView, .vkDestroyImage, .vkFreeMemory .storage_image_memory,
      .vkDestroyCommandPool, .delete_scalar .swapchain_images, .vkDestroySwapchainKHR,
      .vkDestroyDevice, .vkDestroySurfaceKHR, .vkDestroyInstance ], by simp [App.free]⟩⟩
  · unfold created_before released_before created_at released_at
    rw [hfoot.1, hfree]
    by_cases hs : d.glfwCreateWindowSurface = VK_SUCCESS
    · simp only [hs, if_true]
      decide
    · simp only [hs, if_false]
      decide
  · unfold released_before released_at
    rw [hfree]
    decide
  · unfold released_before released_at
    rw [hfree]
    decide

/-- Witness of `free_reverse_of_creation` on the sample run. -/
theorem free_reverse_of_creation_witness :
    (∀ a ∈ gpu_objects, ∀ b ∈ gpu_objects,
        created_before a b sample_run.trace = true →
        (a, b) ∉ forward_pairs →
        released_before b a
          (App.free sample_run).trace = true)
      ∧ (∀ p ∈ forward_pairs, released_before p.1 p.2 (App.free sample_run).trace = true)
      ∧ (∀ a ∈ gpu_objects, released_before a .window
          (App.free sample_run).trace = true)
      ∧ ∃ calls, (App.free sample_run).trace
          = calls ++ [.glfwDestroyWindow, .glfwTerminate] :=
  free_reverse_of_creation sample_driver sample_app
    sample_run rfl rfl

/-- C6, evaluated: `create_swapchain` allocates the swapchain image array with
`new[]` and `free` hands it to the scalar `delete`, never to `delete[]`, so
the array is created once and released by no call; this holds on the sample
run and on every run in which `initialize` returns.  Every other handle and
host array (the surface when its creation succeeded) is created once and
released once, after its creation, by the time `free` returns, and each upload
function creates its staging buffer and staging memory once and releases them
once, after the buffer copy, among its own calls. -/
theorem free_image_array_scalar_delete :
    ( App.initialize sample_driver sample_app = .done sample_run
        ∧ Call.new_array .swapchain_images 3 ∈ sample_run.trace
        ∧ Call.delete_scalar .swapchain_images ∈ (App.free sample_run).trace
        ∧ Call.delete_array .swapchain_images ∉ (App.free sample_run).trace
        ∧ allocation_count .swapchain_images (App.free sample_run).trace = 1
        ∧ release_count .swapchain_images (App.free sample_run).trace = 0)
      ∧ (∀ (d : Driver) (app app1 : App), app.trace = [] →
          App.initialize d app = .done app1 →
          (allocation_count .swapchain_images (App.free app1).trace = 1
            ∧ release_count .swapchain_images (App.free app1).trace = 0
            ∧ Call.delete_scalar .swapchain_images ∈ (App.free app1).trace)
          ∧ ∀ o ∈ every_object, o ≠ .swapchain_images →
              (o = .surface → d.glfwCreateWindowSurface = VK_SUCCESS) →
              allocation_count o (App.free app1).trace = 1
                ∧ release_count o (App.free app1).trace = 1
                ∧ strictly_before (created_at o (App.free app1).trace)
                    (released_at o (App.free app1).trace) = true)
      ∧ (∀ app2 : App, ∃ a calls, App.create_vertex_buffer app2 = .done a
          ∧ a.trace = app2.trace ++ calls
          ∧ ∀ o ∈ [Obj.p_position_staging_buffer, Obj.p_position_staging_buffer_memory],
              allocation_count o calls = 1 ∧ release_count o calls = 1
                ∧ strictly_before (copied_at .p_position_staging_buffer calls)
                    (released_at o calls) = true)
      ∧ (∀ app2 : App, ∃ a calls, App.create_index_buffer app2 = .done a
          ∧ a.trace = app2.trace ++ calls
          ∧ ∀ o ∈ [Obj.p_staging_buffer, Obj.p_staging_buffer_memory],
              allocation_count o calls = 1 ∧ release_count o calls = 1
                ∧ strictly_before (copied_at .p_staging_buffer calls)
                    (released_at o calls) = true) := by
  refine ⟨⟨rfl, by decide, by decide, by decide, by decide, by decide⟩, ?_, ?_, ?_⟩
  · intro d app app1 h0 hinit
    have hfoot := initialize_footprint h0 hinit
    have hfree := free_footprint app1
    rw [hfoot.1, hfoot.2] at hfree
    refine ⟨⟨?_, ?_, by simp [App.free]⟩, ?_⟩
    · unfold allocation_count
      rw [hfree.1]
      by_cases hs : d.glfwCreateWindowSurface = VK_SUCCESS
      · simp only [hs, if_true]
        decide
      · simp only [hs, if_false]
        decide
    · unfold release_count
      rw [hfree.2]
      decide
    · unfold allocation_count release_count created_at released_at
      rw [hfree.1, hfree.2]
      by_cases hs : d.glfwCreateWindowSurface = VK_SUCCESS
      · simp only [hs, if_true]
        decide
      · simp only [hs, if_false]
        decide
  · intro app2
    refine ⟨_, [ .vkCreateBuffer .p_position_staging_buffer (app2.sizeof_Vertex * 3),
        .vkGetBufferMemoryRequirements .p_position_staging_buffer,
        .vkAllocateMemory .p_position_staging_buffer_memory VK_SUCCESS,
        .vkBindBufferMemory .p_position_staging_buffer .p_position_staging_buffer_memory,
        .vkMapMemory .p_position_staging_buffer_memory (app2.sizeof_Vertex * 3),
        .memcpy (app2.sizeof_Vertex * 3),
        .vkUnmapMemory .p_position_staging_buffer_memory,
        .vkCreateBuffer .vertex_position_buffer (app2.sizeof_Vertex * 3),
        .vkGetBufferMemoryRequirements .vertex_position_buffer,
        .vkAllocateMemory .vertex_position_buffer_memory VK_SUCCESS,
        .vkBindBufferMemory .vertex_position_buffer .vertex_position_buffer_memory,
        .copy_buffer .p_position_staging_buffer .vertex_position_buffer
          (app2.sizeof_Vertex * 3),
        .vkDestroyBuffer .p_position_staging_buffer,
        .vkFreeMemory .p_position_staging_buffer_memory ], rfl, ?_, ?_⟩
    · simp [App.log, create_buffer]
    · simp [allocation_count, release_count, copied_at, released_at, step_count, step_index,
        strictly_before, Call.allocates, Call.releases, Call.copies_from]
  · intro app2
    refine ⟨_, [ .new_array .p_position_indices 3,
        .vkCreateBuffer .p_staging_buffer 4,
        .vkGetBufferMemoryRequirements .p_staging_buffer,
        .vkAllocateMemory .p_staging_buffer_memory VK_SUCCESS,
        .vkBindBufferMemory .p_staging_buffer .p_staging_buffer_memory,
        .vkMapMemory .p_staging_buffer_memory 4,
        .memcpy 4,
        .vkUnmapMemory .p_staging_buffer_memory,
        .vkCreateBuffer .index_buffer 4,
        .vkGetBufferMemoryRequirements .index_buffer,
        .vkAllocateMemory .index_buffer_memory VK_SUCCESS,
        .vkBindBufferMemory .index_buffer .index_buffer_memory,
        .copy_buffer .p_staging_buffer .index_buffer 4,
        .vkDestroyBuffer .p_staging_buffer,
        .vkFreeMemory .p_staging_buffer_memory,
        .delete_array .p_position_indices ], rfl, ?_, ?_⟩
    · simp [App.log, create_buffer, sizeof_uint32_t]
    · decide

/-! ## Mesh upload -/

/-- C7, evaluated: `create_index_buffer` uploads `sizeof(uint32_t) * num_faces`,
that is 4, bytes.  The device-local index buffer ends up holding the four bytes
of index 0, whereas the host index array has 12 bytes (the indices 0, 1, 2). -/
theorem create_index_buffer_uploads_one_index (app : App) :
    (App.create_index_buffer app).app.index_buffer_data = [0, 0, 0, 0]
      ∧ p_position_indices_bytes = [0, 0, 0, 0, 1, 0, 0, 0, 2, 0, 0, 0]
      ∧ (App.create_index_buffer app).app.index_buffer_data.length = sizeof_uint32_t
      ∧ p_position_indices_bytes.length = sizeof_uint32_t * p_position_indices.length
      ∧ (App.create_index_buffer app).app.index_buffer_data ≠ p_position_indices_bytes := by
  refine ⟨rfl, rfl, rfl, rfl, ?_⟩
  show ([0, 0, 0, 0] : List Nat) ≠ [0, 0, 0, 0, 1, 0, 0, 0, 2, 0, 0, 0]
  decide

/-! ## Swapchain format and present mode -/

/-- C8, as stated, fails: the sample surface reports `VK_FORMAT_B8G8R8A8_UNORM`
first, and the create info carries `VK_FORMAT_B8G8R8A8_SRGB`. -/
theorem create_swapchain_format_not_first :
    sample_driver.surface_formats.head?
        = some { format := VK_FORMAT_B8G8R8A8_UNORM,
                 colorSpace := VK_COLOR_SPACE_SRGB_NONLINEAR_KHR }
      ∧ (swapchain_requests (App.create_swapchain sample_driver sample_app).app.trace).map
          (fun info => info.imageFormat) = [VK_FORMAT_B8G8R8A8_SRGB]
      ∧ VK_FORMAT_B8G8R8A8_SRGB ≠ VK_FORMAT_B8G8R8A8_UNORM := by
  decide

/-- C8, amended: for non-empty lists of surface formats and present modes,
`create_swapchain` makes one swapchain request whose present mode is the first
reported present mode and whose image format and colour space are the
constants `VK_FORMAT_B8G8R8A8_SRGB` and `VK_COLOR_SPACE_SRGB_NONLINEAR_KHR`;
when the creation succeeds, the member `swapchain_image_format` is the format
of the first reported surface format. -/
theorem create_swapchain_first_entries (d : Driver) (app : App) (f : VkSurfaceFormatKHR)
    (fs : List VkSurfaceFormatKHR) (m : Nat) (ms : List Nat)
    (hf : d.surface_formats = f :: fs) (hp : d.present_modes = m :: ms) :
    (swapchain_requests (App.create_swapchain d app).app.trace).map
        (fun info => (info.presentMode, info.imageFormat, info.imageColorSpace))
      = (swapchain_requests app.trace).map
          (fun info => (info.presentMode, info.imageFormat, info.imageColorSpace)) ++
        [(m, VK_FORMAT_B8G8R8A8_SRGB, VK_COLOR_SPACE_SRGB_NONLINEAR_KHR)]
      ∧ (d.vkCreateSwapchainKHR = VK_SUCCESS →
          ∃ a, App.create_swapchain d app = .done a
            ∧ a.swapchain_image_format = f.format) := by
  constructor
  · unfold App.create_swapchain
    by_cases hr : d.vkCreateSwapchainKHR = VK_SUCCESS
    · simp [hf, hp, hr, Outcome.app, swapchain_requests_append, swapchain_requests]
    · simp [hf, hp, hr, Outcome.app, swapchain_requests_append, swapchain_requests]
  · intro hr
    unfold App.create_swapchain
    simp [hf, hp, hr, App.log]

/-- Witness of `create_swapchain_first_entries` on the sample driver. -/
theorem create_swapchain_first_entries_witness :
    (swapchain_requests (App.create_swapchain sample_driver sample_app).app.trace).map
        (fun info => (info.presentMode, info.imageFormat, info.imageColorSpace))
      = (swapchain_requests sample_app.trace).map
          (fun info => (info.presentMode, info.imageFormat, info.imageColorSpace)) ++
        [(VK_PRESENT_MODE_FIFO_KHR, VK_FORMAT_B8G8R8A8_SRGB,
          VK_COLOR_SPACE_SRGB_NONLINEAR_KHR)]
      ∧ (sample_driver.vkCreateSwapchainKHR = VK_SUCCESS →
          ∃ a, App.create_swapchain sample_driver sample_app = .done a
            ∧ a.swapchain_image_format
              = (VkSurfaceFormatKHR.mk VK_FORMAT_B8G8R8A8_UNORM
                  VK_COLOR_SPACE_SRGB_NONLINEAR_KHR).format) :=
  create_swapchain_first_entries sample_driver sample_app
    { format := VK_FORMAT_B8G8R8A8_UNORM, colorSpace := VK_COLOR_SPACE_SRGB_NONLINEAR_KHR }
    [{ format := VK_FORMAT_B8G8R8A8_SRGB, colorSpace := VK_COLOR_SPACE_SRGB_NONLINEAR_KHR }]
    VK_PRESENT_MODE_FIFO_KHR [VK_PRESENT_MODE_IMMEDIATE_KHR] rfl rfl

/-! ## Render loop -/

/-- C9: when the answers of `glfwWindowShouldClose` are zero at the positions
before `n` and non-zero at position `n`, `render_loop` returns, having called
`glfwPollEvents` exactly `n` times and no GPU function. -/
theorem render_loop_polls_until_close (readings : List Int) (n : Nat) (app : App)
    (hzero : ∀ i, i < n → readings[i]? = some 0)
    (hclose : ∃ r, readings[n]? = some r ∧ r ≠ 0) :
    ∃ a calls, App.render_loop readings app = some a
      ∧ a.trace = app.trace ++ calls
      ∧ calls.count .glfwPollEvents = n
      ∧ (∀ c ∈ calls, c.is_gpu_call = false) := by
  induction readings generalizing n app with
  | nil =>
    obtain ⟨r, hr, _⟩ := hclose
    simp at hr
  | cons reading rest ih =>
    cases n with
    | zero =>
      obtain ⟨r, hr, hne⟩ := hclose
      simp at hr
      subst hr
      exact ⟨app.log (.glfwWindowShouldClose reading), [.glfwWindowShouldClose reading],
        by simp [App.render_loop, hne], by simp, by simp, by simp [Call.is_gpu_call]⟩
    | succ k =>
      have h0 : reading = 0 := by
        have := hzero 0 (Nat.succ_pos k)
        simpa using this
      subst h0
      have hz : ∀ i, i < k → rest[i]? = some 0 := by
        intro i hi
        have := hzero (i + 1) (Nat.succ_lt_succ hi)
        simpa using this
      have hc : ∃ r, rest[k]? = some r ∧ r ≠ 0 := by
        obtain ⟨r, hr, hne⟩ := hclose
        exact ⟨r, by simpa using hr, hne⟩
      obtain ⟨a, calls, hrun, htrace, hcount, hgpu⟩ :=
        ih k ((app.log (.glfwWindowShouldClose 0)).log .glfwPollEvents) hz hc
      refine ⟨a, [.glfwWindowShouldClose 0, .glfwPollEvents] ++ calls, ?_, ?_, ?_, ?_⟩
      · simp [App.render_loop, hrun]
      · simp [htrace]
      · simp [hcount, List.count_cons]
      · intro c hc
        simp at hc
        rcases hc with rfl | rfl | hc
        · rfl
        · rfl
        · exact hgpu c hc

/-- Witness of `render_loop_polls_until_close`: the close request arrives at
the third reading, after two polls. -/
theorem render_loop_polls_until_close_witness :
    ∃ a calls, App.render_loop [0, 0, 1, 0] sample_app = some a
      ∧ a.trace = sample_app.trace ++ calls
      ∧ calls.count .glfwPollEvents = 2
      ∧ (∀ c ∈ calls, c.is_gpu_call = false) :=
  render_loop_polls_until_close [0, 0, 1, 0] 2 sample_app (by decide) ⟨1, rfl, by decide⟩

/-! ## Instance extensions -/

theorem instance_requests_append (xs ys : List Call) :
    instance_requests (xs ++ ys) = instance_requests xs ++ instance_requests ys := by
  induction xs with
  | nil => rfl
  | cons c rest ih => cases c <;> simp [instance_requests, ih]

theorem copy_extension_names_length (src : List String) (k i : Nat) (dst : List String) :
    (copy_extension_names src k i dst).length = dst.length := by
  induction k generalizing i dst with
  | zero => rfl
  | succ k ih => simp [copy_extension_names, ih]

theorem copy_extension_names_get (src : List String) (k i : Nat) (dst : List String)
    (j : Nat) :
    (copy_extension_names src k i dst)[j]?
      = if i ≤ j ∧ j < i + k ∧ j < dst.length then some (src.getD j "") else dst[j]? := by
  induction k generalizing i dst with
  | zero =>
    have h : ¬ (i ≤ j ∧ j < i + 0 ∧ j < dst.length) := by omega
    rw [copy_extension_names, if_neg h]
  | succ k ih =>
    rw [copy_extension_names, ih, List.getElem?_set, List.length_set]
    by_cases hij : i = j
    · subst hij
      by_cases hlt : i < dst.length
      · simp [hlt]
      · have : dst[i]? = none := List.getElem?_eq_none (Nat.le_of_not_lt hlt)
        simp [hlt, this]
    · by_cases h1 : i + 1 ≤ j ∧ j < i + 1 + k ∧ j < dst.length
      · have h2 : i ≤ j ∧ j < i + (k + 1) ∧ j < dst.length := ⟨by omega, by omega, h1.2.2⟩
        simp [h1, h2]
      · have h2 : ¬ (i ≤ j ∧ j < i + (k + 1) ∧ j < dst.length) := by
          intro h
          exact h1 ⟨by omega, by omega, h.2.2⟩
        simp [h1, h2, hij]

theorem extension_names_eq (names : List String) (ext : String) :
    (copy_extension_names names names.length 0
        (List.replicate (names.length + 1) "")).set names.length ext
      = names ++ [ext] := by
  apply List.ext_getElem?
  intro j
  rw [List.getElem?_set, copy_extension_names_length, copy_extension_names_get]
  simp only [List.length_replicate]
  by_cases hj : j < names.length
  · have hne : names.length ≠ j := by omega
    have hcond : 0 ≤ j ∧ j < 0 + names.length ∧ j < names.length + 1 :=
      ⟨Nat.zero_le _, by omega, by omega⟩
    rw [if_neg hne, if_pos hcond, List.getElem?_append_left hj, List.getD_eq_getElem?_getD,
      List.getElem?_eq_getElem hj]
    rfl
  · by_cases hje : names.length = j
    · subst hje
      simp
    · have hgt : names.length < j := by omega
      have hcond : ¬ (0 ≤ j ∧ j < 0 + names.length ∧ j < names.length + 1) := by
        intro h
        omega
      have h1 : (List.replicate (names.length + 1) "")[j]? = none :=
        List.getElem?_eq_none (by simp; omega)
      have h2 : (names ++ [ext])[j]? = none :=
        List.getElem?_eq_none (by simp; omega)
      rw [if_neg hje, if_neg hcond, h1, h2]

/-- C11, as stated, fails: when the windowing library requires 4294967295
extensions, the count `glfw_extension_count + 1` wraps to zero, the array is
allocated with no slot, and `create_surface` writes outside of it; no list of
4294967296 names reaches `vkCreateInstance`. -/
theorem create_surface_count_wraps :
    crowded_driver.glfw_extension_names.length = 4294967295
      ∧ (∃ a, App.create_surface crowded_driver sample_app = .out_of_bounds a
          ∧ a.trace.getLast? = some (.new_array .p_extension_names 0))
      ∧ instance_requests (App.create_surface crowded_driver sample_app).app.trace = [] := by
  have hlen : crowded_driver.glfw_extension_names.length = 4294967295 :=
    List.length_replicate _ _
  have hwrap : (crowded_driver.glfw_extension_names.length + 1) % UINT32_RANGE
      ≤ crowded_driver.glfw_extension_names.length := by
    rw [hlen]
    decide
  have hrun : App.create_surface crowded_driver sample_app
      = .out_of_bounds ((((((((sample_app.log .glfwInit).log .glfwWindowHint).log
          .glfwWindowHint).log (.glfwCreateWindow 800 600 "Raytracing Demo")).log
          .glfwSetInputMode).log .glfwSetKeyCallback).log
          .glfwGetRequiredInstanceExtensions).log (.new_array .p_extension_names 0)) := by
    unfold App.create_surface
    simp only [if_pos hwrap]
    rw [hlen]
    rfl
  refine ⟨hlen, ⟨_, hrun, ?_⟩, ?_⟩
  · simp [App.log, sample_app]
  · rw [hrun]
    simp [Outcome.app, App.log, sample_app, instance_requests]

/-- C11, amended: for every list of `n` required extensions with `n` below
4294967295 (so that the `uint32_t` count `n + 1` does not wrap),
`create_surface` makes one instance request; its only layer is
"VK_LAYER_KHRONOS_validation", and its extension list has `n + 1` entries, the
first `n` being the required extensions in their order and the last being
"VK_KHR_get_physical_device_properties2". -/
theorem create_surface_extension_list (d : Driver) (app : App)
    (hn : d.glfw_extension_names.length + 1 < UINT32_RANGE) :
    ∃ extensions, instance_requests (App.create_surface d app).app.trace
        = instance_requests app.trace ++ [(["VK_LAYER_KHRONOS_validation"], extensions)]
      ∧ extensions.length = d.glfw_extension_names.length + 1
      ∧ extensions.take d.glfw_extension_names.length = d.glfw_extension_names
      ∧ extensions[d.glfw_extension_names.length]?
          = some "VK_KHR_get_physical_device_properties2" := by
  have hmod : (d.glfw_extension_names.length + 1) % UINT32_RANGE
      = d.glfw_extension_names.length + 1 := Nat.mod_eq_of_lt hn
  refine ⟨d.glfw_extension_names ++ ["VK_KHR_get_physical_device_properties2"], ?_, ?_, ?_, ?_⟩
  · unfold App.create_surface
    simp only [hmod]
    rw [extension_names_eq]
    by_cases hr : d.vkCreateInstance = VK_SUCCESS
    · simp [hr, Outcome.app, instance_requests_append, instance_requests]
    · simp [hr, Outcome.app, instance_requests_append, instance_requests]
  · simp
  · simp
  · simp

/-- Witness of `create_surface_extension_list` on the sample driver, whose
windowing library requires two extensions. -/
theorem create_surface_extension_list_witness :
    ∃ extensions, instance_requests (App.create_surface sample_driver sample_app).app.trace
        = instance_requests sample_app.trace
          ++ [(["VK_LAYER_KHRONOS_validation"], extensions)]
      ∧ extensions.length = sample_driver.glfw_extension_names.length + 1
      ∧ extensions.take sample_driver.glfw_extension_names.length
          = sample_driver.glfw_extension_names
      ∧ extensions[sample_driver.glfw_extension_names.length]?
          = some "VK_KHR_get_physical_device_properties2" :=
  create_surface_extension_list sample_driver sample_app (by decide)

/-! ## Physical device selection -/

/-- C12, evaluated at the failing input: when the enumeration reports one
physical device, `create_physical_device` reads `p_devices[1]`, outside the
enumerated list; the same holds for every enumeration of at most one device. -/
theorem create_physical_device_reads_past_end :
    (∃ a, App.create_physical_device single_device_driver sample_app = .out_of_bounds a)
      ∧ single_device_driver.devices.length = 1
      ∧ ∀ (d : Driver) (app : App), d.devices.length ≤ 1 →
          ∃ a, App.create_physical_device d app = .out_of_bounds a := by
  refine ⟨⟨_, rfl⟩, rfl, ?_⟩
  intro d app hlen
  have hnone : d.devices[1]? = none := List.getElem?_eq_none hlen
  unfold App.create_physical_device
  simp only [hnone]
  exact ⟨_, rfl⟩

/-! ## Keyboard input -/

theorem GLFW_PRESS_ne_RELEASE : GLFW_PRESS ≠ GLFW_RELEASE := by
  decide

theorem key_callback_eq (table : List Int) (k action : Int)
    (h0 : 0 ≤ k) (hk : k < (table.length : Int)) :
    key_callback table k action
      = some (if action = GLFW_PRESS then table.set k.toNat 1
          else if action = GLFW_RELEASE then table.set k.toNat 0 else table) := by
  unfold key_callback array_write
  by_cases hp : action = GLFW_PRESS
  · subst hp
    simp [GLFW_PRESS_ne_RELEASE, h0, hk]
  · by_cases hr : action = GLFW_RELEASE
    · subst hr
      simp [GLFW_PRESS_ne_RELEASE.symm, h0, hk]
    · simp [hp, hr]

/-- C13: on a table of 500 entries and a key `k` with `0 ≤ k < 500`,
`key_callback` returns a table of 500 entries whose entry `k` is 1 after
`GLFW_PRESS`, 0 after `GLFW_RELEASE` and unchanged after any other action, all
other entries being unchanged; and after any sequence of callbacks with keys
in that range, started on the zero-initialised table, every entry is 0 or 1. -/
theorem key_callback_pressed_flag :
    (∀ (table : List Int) (k action : Int), table.length = 500 → 0 ≤ k → k < 500 →
        ∃ t, key_callback table k action = some t
          ∧ t.length = 500
          ∧ (action = GLFW_PRESS → t[k.toNat]? = some 1)
          ∧ (action = GLFW_RELEASE → t[k.toNat]? = some 0)
          ∧ (action ≠ GLFW_PRESS → action ≠ GLFW_RELEASE → t[k.toNat]? = table[k.toNat]?)
          ∧ (∀ j, j ≠ k.toNat → t[j]? = table[j]?))
      ∧ (∀ events : List (Int × Int), (∀ e ∈ events, 0 ≤ e.1 ∧ e.1 < 500) →
        ∃ t, key_callbacks key_down_index events = some t
          ∧ t.length = 500 ∧ ∀ x ∈ t, x = 0 ∨ x = 1) := by
  have step : ∀ (table : List Int) (k action : Int), table.length = 500 → 0 ≤ k → k < 500 →
      ∃ t, key_callback table k action = some t
        ∧ t.length = 500
        ∧ (action = GLFW_PRESS → t[k.toNat]? = some 1)
        ∧ (action = GLFW_RELEASE → t[k.toNat]? = some 0)
        ∧ (action ≠ GLFW_PRESS → action ≠ GLFW_RELEASE → t[k.toNat]? = table[k.toNat]?)
        ∧ (∀ j, j ≠ k.toNat → t[j]? = table[j]?)
        ∧ ((∀ x ∈ table, x = 0 ∨ x = 1) → ∀ x ∈ t, x = 0 ∨ x = 1) := by
    intro table k action hlen h0 hk
    have hk2 : k < (table.length : Int) := by
      rw [hlen]
      exact hk
    have hnat : k.toNat < table.length := by
      rw [hlen]
      omega
    refine ⟨_, key_callback_eq table k action h0 hk2, ?_, ?_, ?_, ?_, ?_, ?_⟩
    · split_ifs <;> simp [hlen]
    · intro hp
      simp [hp, hnat]
    · intro hr
      subst hr
      simp [GLFW_PRESS_ne_RELEASE.symm, hnat]
    · intro hp hr
      simp [hp, hr]
    · intro j hj
      split_ifs <;> simp [List.getElem?_set, Ne.symm hj]
    · intro hall x hx
      split_ifs at hx
      · rcases List.mem_or_eq_of_mem_set hx with h | h
        · exact hall x h
        · exact Or.inr h
      · rcases List.mem_or_eq_of_mem_set hx with h | h
        · exact hall x h
        · exact Or.inl h
      · exact hall x hx
  constructor
  · intro table k action hlen h0 hk
    obtain ⟨t, h1, h2, h3, h4, h5, h6, _⟩ := step table k action hlen h0 hk
    exact ⟨t, h1, h2, h3, h4, h5, h6⟩
  · have inv : ∀ (events : List (Int × Int)) (table : List Int), table.length = 500 →
        (∀ x ∈ table, x = 0 ∨ x = 1) → (∀ e ∈ events, 0 ≤ e.1 ∧ e.1 < 500) →
        ∃ t, key_callbacks table events = some t
          ∧ t.length = 500 ∧ ∀ x ∈ t, x = 0 ∨ x = 1 := by
      intro events
      induction events with
      | nil =>
        intro table hlen hall _
        exact ⟨table, rfl, hlen, hall⟩
      | cons e rest ih =>
        intro table hlen hall hrange
        obtain ⟨key, action⟩ := e
        have hkey := hrange (key, action) (List.mem_cons_self _ _)
        obtain ⟨t, h1, h2, _, _, _, _, h7⟩ := step table key action hlen hkey.1 hkey.2
        obtain ⟨t2, hrun, hlen2, hall2⟩ := ih t h2 (h7 hall)
          (fun e he => hrange e (List.mem_cons_of_mem _ he))
        exact ⟨t2, by simp [key_callbacks, h1, hrun], hlen2, hall2⟩
    intro events hrange
    exact inv events key_down_index (List.length_replicate _ _)
      (fun x hx => Or.inl (List.eq_of_mem_replicate hx)) hrange

/-- Witness of `key_callback_pressed_flag`: key 3 pressed on the initial table,
and the sequence press 3, press 4, release 3. -/
theorem key_callback_pressed_flag_witness :
    (∃ t, key_callback key_down_index 3 GLFW_PRESS = some t
        ∧ t.length = 500
        ∧ (GLFW_PRESS = GLFW_PRESS → t[(3 : Int).toNat]? = some 1)
        ∧ (GLFW_PRESS = GLFW_RELEASE → t[(3 : Int).toNat]? = some 0)
        ∧ (GLFW_PRESS ≠ GLFW_PRESS → GLFW_PRESS ≠ GLFW_RELEASE →
            t[(3 : Int).toNat]? = key_down_index[(3 : Int).toNat]?)
        ∧ (∀ j, j ≠ (3 : Int).toNat → t[j]? = key_down_index[j]?))
      ∧ (∃ t, key_callbacks key_down_index
            [(3, GLFW_PRESS), (4, GLFW_PRESS), (3, GLFW_RELEASE)] = some t
          ∧ t.length = 500 ∧ ∀ x ∈ t, x = 0 ∨ x = 1) :=
  ⟨key_callback_pressed_flag.1 key_down_index 3 GLFW_PRESS (List.length_replicate _ _)
      (by decide) (by decide),
   key_callback_pressed_flag.2 [(3, GLFW_PRESS), (4, GLFW_PRESS), (3, GLFW_RELEASE)]
      (by decide)⟩

end Raytracing

namespace crow

/-! ## `crow::game::initialize`: log and rethrow -/

theorem Host.failure_throws {h : Host} {s : Step} {what : String}
    (h1 : s ≠ .SDL_CreateWindow) (h2 : s ≠ .SDL_Vulkan_CreateSurface)
    (hfail : h.failure s = some what) : h.throws s = some (.std_exception what) := by
  cases s <;> simp [Host.failure] at hfail h1 h2 <;>
  · split at hfail
    · rename_i w hw
      simp at hfail
      rw [hw, hfail]
    · simp at hfail

/-- C10: when the setup steps before position `k` of the source order complete
and the step at position `k` fails with a `std::exception` of text `what`
(window creation answering `nullptr` and surface creation answering
`SDL_FALSE` included), `initialize` lets that same exception out, has appended
`what` and a newline to `std::cerr`, and has executed the steps up to position
`k`, at most `SDL_GetError` after them, and none of the later steps. -/
theorem game_initialize_logs_and_rethrows (h : Host) (g : game) (k : Nat) (s : Step)
    (what : String)
    (hs : game.order[k]? = some s)
    (hpre : ∀ t ∈ game.order.take k, h.succeeds t = true)
    (hfail : h.failure s = some what) :
    ( game.initialize h g).exception = some (.std_exception what)
      ∧ ( game.initialize h g).game.cerr = g.cerr ++ what ++ "\n"
      ∧ ∃ reported, ( game.initialize h g).game.executed
            = g.executed ++ game.order.take (k + 1) ++ reported
          ∧ (∀ t ∈ reported, t = .SDL_GetError)
          ∧ (∀ t ∈ game.order.drop (k + 1), t ∉ game.order.take (k + 1) ++ reported) := by
  have hk : k < 10 := by
    by_contra hge
    have : game.order[k]? = none := by
      apply List.getElem?_eq_none
      simp [game.order]
      omega
    rw [this] at hs
    cases hs
  interval_cases k
  all_goals simp [game.order] at hs hpre
  all_goals subst hs
  all_goals first
    | have hthrow := Host.failure_throws (by decide) (by decide) hfail
      simp [Host.succeeds] at hpre
      refine ⟨?_, ?_, [], ?_, ?_, ?_⟩ <;>
        simp [ game.initialize, game.try_block, game.call, game.run, hthrow, hpre,
          Result.exception, Result.game, game.order]
    | simp [Host.failure] at hfail
      try simp [Host.succeeds] at hpre
      refine ⟨?_, ?_, [.SDL_GetError], ?_, ?_, ?_⟩ <;>
        simp [ game.initialize, game.try_block, game.call, game.run, hfail.1, hfail.2, hpre,
          Result.exception, Result.game, game.order]

/-- Witness of `game_initialize_logs_and_rethrows`: surface creation, the sixth
step, answers `SDL_FALSE` after the first five steps have completed. -/
theorem game_initialize_logs_and_rethrows_witness :
    ( game.initialize no_surface_host fresh_game).exception
        = some (.std_exception "VK_KHR_surface extension is not enabled")
      ∧ ( game.initialize no_surface_host fresh_game).game.cerr
        = fresh_game.cerr ++ "VK_KHR_surface extension is not enabled" ++ "\n"
      ∧ ∃ reported, ( game.initialize no_surface_host fresh_game).game.executed
            = fresh_game.executed ++ game.order.take (5 + 1) ++ reported
          ∧ (∀ t ∈ reported, t = .SDL_GetError)
          ∧ (∀ t ∈ game.order.drop (5 + 1), t ∉ game.order.take (5 + 1) ++ reported) :=
  game_initialize_logs_and_rethrows no_surface_host fresh_game 5 .SDL_Vulkan_CreateSurface
    "VK_KHR_surface extension is not enabled" rfl (by decide) rfl

end crow
